import Mathlib

/-!
Shallow embedding of `src/trdp/src/vos/windows/vos_winThread.c` (TCNopen TRDP,
Windows VOS layer): time-value arithmetic, the cyclic-scheduler wait
computation, thread-lifecycle entry points, mutex/semaphore operations and the
UUID generator, together with theorems settling the specification claims.

Modelling conventions:
* `VOS_TIMEVAL_T.tv_sec` is modelled as `Int` (the C field is a 32-bit signed
  `long`; purely signed C arithmetic is modelled on unbounded `Int`, i.e. on
  the defined-behaviour envelope, while every place the C source mixes signed
  and unsigned 32-bit arithmetic carries an explicit conversion through
  `toU32`/`fromU32`).
* `tv_usec` is modelled as `Nat`; the field type is not under `src/` and is
  modelled from the spec ("microseconds: unsigned integer"); every C operation
  on it that is 32-bit unsigned arithmetic reduces modulo `2^32` explicitly
  (`uadd32`, `usub32`, `umul32`).
* Native Win32 calls (`WaitForSingleObject`, `ReleaseSemaphore`,
  `CloseHandle`, `CreateThread`, ...) are oracles passed as parameters; their
  success conventions follow the Win32 API (nonzero return means success for
  `ReleaseSemaphore`/`CloseHandle`, as the change log of the source notes for
  `CloseHandle`).
* Logging (`vos_printLog`/`vos_printLogStr`) is a side-effect sink, modelled
  as a `Bool` component recording whether the operation logged.
-/

namespace VosWin

/-- 2^32, the modulus of the 32-bit unsigned arithmetic used by the source. -/
def U32_MOD : Nat := 4294967296

/-- Reinterpret a C 32-bit signed value as the unsigned 32-bit value the C
usual arithmetic conversions produce (twos complement). -/
def toU32 (s : Int) : Nat := (s % (4294967296 : Int)).toNat

/-- Reinterpret an unsigned 32-bit value as the 32-bit signed value sharing
its twos-complement representation. -/
def fromU32 (n : Nat) : Int :=
  if n < 2147483648 then (n : Int) else (n : Int) - 4294967296

/-- 32-bit unsigned addition. -/
def uadd32 (x y : Nat) : Nat := (x + y) % U32_MOD

/-- 32-bit unsigned multiplication. -/
def umul32 (x y : Nat) : Nat := (x * y) % U32_MOD

/-- 32-bit unsigned subtraction (wraps on underflow). -/
def usub32 (x y : Nat) : Nat := (x % U32_MOD + (U32_MOD - y % U32_MOD)) % U32_MOD

/-- `VOS_TIMEVAL_T`: seconds / microseconds pair (struct timeval).  The field
types are not under `src/`; per the data model of the spec, seconds is a signed
integer and microseconds an unsigned integer. -/
structure VOS_TIMEVAL_T where
  tv_sec : Int
  tv_usec : Nat
  deriving DecidableEq, Repr

/-- `VOS_ERR_T`: the error codes returned by the VOS layer (the subset used in
`vos_winThread.c`). -/
inductive VOS_ERR_T where
  | VOS_NO_ERR
  | VOS_PARAM_ERR
  | VOS_INIT_ERR
  | VOS_NOINIT_ERR
  | VOS_MEM_ERR
  | VOS_THREAD_ERR
  | VOS_MUTEX_ERR
  | VOS_INUSE_ERR
  | VOS_SEMA_ERR
  deriving DecidableEq, Repr

open VOS_ERR_T

/-- Outcome of the native `WaitForSingleObject` call, as distinguished by the
switch statements of the source. -/
inductive WaitResult where
  | waitObject0
  | waitAbandoned
  | waitTimeout
  | waitFailed
  deriving DecidableEq, Repr

/-- The `while (tv_usec >= 1000000) { tv_sec++; tv_usec -= 1000000; }`
normalization loop shared by `vos_addTime` and `vos_mulTime`. -/
def normalizeUsec (s : Int) (u : Nat) : Int × Nat :=
  if 1000000 ≤ u then normalizeUsec (s + 1) (u - 1000000) else (s, u)
  termination_by u
  decreasing_by omega

/-- `vos_addTime` (non-null path): add fields, then normalize microseconds. -/
def vos_addTime (t a : VOS_TIMEVAL_T) : VOS_TIMEVAL_T :=
  let p := normalizeUsec (t.tv_sec + a.tv_sec) (uadd32 t.tv_usec a.tv_usec)
  ⟨p.1, p.2⟩

/-- `vos_subTime` (non-null path): borrow one second into the microsecond
field when the microseconds of the subtrahend exceed those of the minuend, then subtract
both fields. -/
def vos_subTime (t s : VOS_TIMEVAL_T) : VOS_TIMEVAL_T :=
  if t.tv_usec < s.tv_usec then
    ⟨t.tv_sec - 1 - s.tv_sec, usub32 (uadd32 t.tv_usec 1000000) s.tv_usec⟩
  else
    ⟨t.tv_sec - s.tv_sec, usub32 t.tv_usec s.tv_usec⟩

/-- `vos_mulTime` (non-null path): scale both fields (the C multiplications
are 32-bit unsigned), then normalize microseconds. -/
def vos_mulTime (t : VOS_TIMEVAL_T) (mul : Nat) : VOS_TIMEVAL_T :=
  let p := normalizeUsec (fromU32 (umul32 (toU32 t.tv_sec) mul)) (umul32 t.tv_usec mul)
  ⟨p.1, p.2⟩

/-- `vos_divTime`: on `divisor = 0` (or a null pointer) the source logs
"ERROR NULL pointer/parameter" and leaves the value unchanged; otherwise it
divides seconds, folds the remainder into microseconds, and divides the
microsecond field.  The `Bool` records whether the error was logged. -/
def vos_divTime (t : VOS_TIMEVAL_T) (divisor : Nat) : VOS_TIMEVAL_T × Bool :=
  if divisor = 0 then (t, true)
  else
    let temp := toU32 t.tv_sec % divisor
    let s := fromU32 (toU32 t.tv_sec / divisor)
    let u1 := if 0 < temp then uadd32 t.tv_usec (umul32 temp 1000000) else t.tv_usec
    (⟨s, u1 / divisor⟩, false)

/-- `timercmp(pTime, pCmp, >)`: lexicographic (seconds, microseconds). -/
def timercmpGT (a b : VOS_TIMEVAL_T) : Bool :=
  if a.tv_sec = b.tv_sec then decide (b.tv_usec < a.tv_usec)
  else decide (b.tv_sec < a.tv_sec)

/-- `timercmp(pTime, pCmp, <)`: lexicographic (seconds, microseconds). -/
def timercmpLT (a b : VOS_TIMEVAL_T) : Bool :=
  if a.tv_sec = b.tv_sec then decide (a.tv_usec < b.tv_usec)
  else decide (a.tv_sec < b.tv_sec)

/-- `vos_cmpTime`, with nullable pointer arguments (`none` = NULL).  The
second component records whether anything was written to the logging sink;
the source function contains no logging call on any path. -/
def vos_cmpTime (pTime pCmp : Option VOS_TIMEVAL_T) : Int × Bool :=
  match pTime, pCmp with
  | none, _ => (0, false)
  | some _, none => (0, false)
  | some a, some b =>
    if timercmpGT a b then (1, false)
    else if timercmpLT a b then (-1, false)
    else (0, false)

/-- The per-cycle wait-time computation of `vos_cyclicThread` (the body after
`vos_subTime` has left the elapsed runtime in `afterCall`): if the elapsed
seconds fit the 32-bit microsecond representation bound
`MAXSEC_FOR_USECPRESENTATION = 4293`, convert to microseconds (32-bit unsigned
arithmetic) and compare against the interval; otherwise, and on overrun, the
waiting time is 0 and an error is logged.  Returns (waitingTime, errorLogged). -/
def cyclicThreadWait (interval : Nat) (afterCall : VOS_TIMEVAL_T) : Nat × Bool :=
  if afterCall.tv_sec ≤ 4293 then
    let execTime := uadd32 (umul32 (umul32 (toU32 afterCall.tv_sec) 1000) 1000) afterCall.tv_usec
    if interval < execTime then (0, true)
    else (usub32 interval execTime, false)
  else (0, true)

/-- Result of `vos_threadCreate`: returned error code, whether a native thread
was spawned, and (when the priority guard `0 < priority && priority <= 255`
was taken) the band index `priority / 36 - 1` computed for the `prioMap`
access. -/
structure ThreadCreateResult where
  ret : VOS_ERR_T
  spawned : Bool
  prioIdx : Option Int
  deriving DecidableEq, Repr

/-- The 7-entry `prioMap` table of `vos_threadCreate`, holding the Windows
native levels THREAD_PRIORITY_IDLE, LOWEST, BELOW_NORMAL, NORMAL,
ABOVE_NORMAL, HIGHEST, TIME_CRITICAL (Win32 values −15, −2, −1, 0, 1, 2, 15;
the numeric values come from the Windows SDK headers, outside `src/`). -/
def prioMap : List Int := [-15, -2, -1, 0, 1, 2, 15]

/-- Reading `prioMap[i]`: `some` entry for an in-bounds index, `none` for an
out-of-bounds access (undefined behaviour in the C source). -/
def prioLookup (i : Int) : Option Int :=
  if 0 ≤ i then prioMap.get? i.toNat else none

/-- The native priority band `vos_threadCreate` passes to
`SetThreadPriority`, when the priority guard was taken and the index is in
bounds. -/
def selectedBand (r : ThreadCreateResult) : Option Int :=
  r.prioIdx.bind prioLookup

/-- `vos_threadCreate`: init-flag check, null checks on the handle and name
pointers, rejection of `interval > 0`, native `CreateThread` (oracle
`createOk`), then the priority-band mapping `prioMap[priority / 36 - 1]` for
priorities in 1..255. -/
def vos_threadCreate (initialised pThreadNull pNameNull : Bool)
    (priority interval : Nat) (createOk : Bool) : ThreadCreateResult :=
  if initialised = false then ⟨VOS_INIT_ERR, false, none⟩
  else if pThreadNull || pNameNull then ⟨VOS_PARAM_ERR, false, none⟩
  else if 0 < interval then ⟨VOS_INIT_ERR, false, none⟩
  else if createOk = false then ⟨VOS_THREAD_ERR, false, none⟩
  else if 0 < priority ∧ priority ≤ 255 then
    ⟨VOS_NO_ERR, true, some ((priority / 36 : Nat) - 1)⟩
  else ⟨VOS_NO_ERR, true, none⟩

/-- `vos_threadTerminate`: init-flag check, then native `TerminateThread`
(oracle `terminateOk`; zero return means failure).  The `Bool` records
whether the native call was reached. -/
def vos_threadTerminate (initialised terminateOk : Bool) : VOS_ERR_T × Bool :=
  if initialised = false then (VOS_INIT_ERR, false)
  else if terminateOk then (VOS_NO_ERR, true)
  else (VOS_THREAD_ERR, true)

/-- `vos_threadIsActive`: init-flag check, then native `GetExitCodeThread`
(oracle `queryOk`).  The `Bool` records whether the native call was reached. -/
def vos_threadIsActive (initialised queryOk : Bool) : VOS_ERR_T × Bool :=
  if initialised = false then (VOS_INIT_ERR, false)
  else if queryOk then (VOS_NO_ERR, true)
  else (VOS_PARAM_ERR, true)

/-- `vos_threadSelf`: null check on the output pointer only.  The source
performs no check of the module init flag, hence the `initialised` argument
is unused. -/
def vos_threadSelf (initialised pThreadNull : Bool) : VOS_ERR_T :=
  let _ := initialised
  if pThreadNull then VOS_PARAM_ERR else VOS_NO_ERR

/-- `vos_threadDelay`: delays below 1 ms are rejected with a parameter error
(and a warning log); otherwise `Sleep(delay / 1000)` runs.  The source
performs no check of the module init flag, hence the `initialised` argument
is unused.  The `Bool` records whether the native `Sleep` was reached. -/
def vos_threadDelay (initialised : Bool) (delay : Nat) : VOS_ERR_T × Bool :=
  let _ := initialised
  if delay < 1000 then (VOS_PARAM_ERR, false)
  else (VOS_NO_ERR, true)

/-- `struct VOS_MUTEX`: the integrity tag field (the native handle is
irrelevant to the claims and abstracted away). -/
structure VOS_MUTEX where
  magicNo : Nat
  deriving DecidableEq, Repr

/-- `cMutextMagic`, the sentinel stamped into a valid mutex. -/
def cMutextMagic : Nat := 0x1234FEDC

/-- `vos_mutexLock`: tag validation, then native infinite wait (oracle).  The
`Bool` records whether the native wait was reached. -/
def vos_mutexLock (pMutex : Option VOS_MUTEX) (wait : WaitResult) : VOS_ERR_T × Bool :=
  match pMutex with
  | none => (VOS_PARAM_ERR, false)
  | some m =>
    if m.magicNo ≠ cMutextMagic then (VOS_PARAM_ERR, false)
    else
      match wait with
      | .waitObject0 => (VOS_NO_ERR, true)
      | _ => (VOS_MUTEX_ERR, true)

/-- `vos_mutexTryLock`: tag validation, then native zero-timeout wait
(oracle); timeout/abandoned map to the in-use outcome.  The `Bool` records
whether the native wait was reached. -/
def vos_mutexTryLock (pMutex : Option VOS_MUTEX) (wait : WaitResult) : VOS_ERR_T × Bool :=
  match pMutex with
  | none => (VOS_PARAM_ERR, false)
  | some m =>
    if m.magicNo ≠ cMutextMagic then (VOS_PARAM_ERR, false)
    else
      match wait with
      | .waitObject0 => (VOS_NO_ERR, true)
      | .waitFailed => (VOS_MUTEX_ERR, true)
      | .waitTimeout => (VOS_INUSE_ERR, true)
      | .waitAbandoned => (VOS_INUSE_ERR, true)

/-- `vos_mutexUnlock`: tag validation (with a logged invalid-parameter
message), then native `ReleaseMutex` (oracle; zero return means failure).
The `Bool` records whether the native call was reached. -/
def vos_mutexUnlock (pMutex : Option VOS_MUTEX) (releaseOk : Bool) : VOS_ERR_T × Bool :=
  match pMutex with
  | none => (VOS_PARAM_ERR, false)
  | some m =>
    if m.magicNo ≠ cMutextMagic then (VOS_PARAM_ERR, false)
    else if releaseOk then (VOS_NO_ERR, true)
    else (VOS_MUTEX_ERR, true)

/-- Result of `vos_mutexDelete`: the handle state after the call, whether the
invalid-parameter message was logged, and whether the native `CloseHandle`
was reached. -/
structure MutexDeleteResult where
  state : Option VOS_MUTEX
  loggedInvalid : Bool
  nativeCalled : Bool
  deriving DecidableEq, Repr

/-- `vos_mutexDelete`: tag validation (logging invalid parameter on
failure), then native `CloseHandle` (oracle `closeOk`; nonzero return means
success, per the change note in the source).  On success the tag is cleared to 0;
on native failure the tag is left intact and a close-error is logged. -/
def vos_mutexDelete (pMutex : Option VOS_MUTEX) (closeOk : Bool) : MutexDeleteResult :=
  match pMutex with
  | none => ⟨none, true, false⟩
  | some m =>
    if m.magicNo ≠ cMutextMagic then ⟨some m, true, false⟩
    else if closeOk then ⟨some ⟨0⟩, false, true⟩
    else ⟨some m, false, true⟩

/-- Result of `vos_semaTake`: returned error code, whether the null-handle
message was logged, and whether the native `WaitForSingleObject` was executed
with a null handle (i.e. dereferenced `NULL->semaphore`). -/
structure SemaTakeResult where
  ret : VOS_ERR_T
  loggedNull : Bool
  nativeWaitOnNull : Bool
  deriving DecidableEq, Repr

/-- `vos_semaTake`: the null check in the source logs and assigns
`retVal = VOS_NOINIT_ERR` but does not return, so control always falls
through to `WaitForSingleObject(sema->semaphore, timeout / 1000)`; the
switch then returns `VOS_NO_ERR` on `WAIT_OBJECT_0`, `VOS_SEMA_ERR` on
`WAIT_FAILED`, and `retVal` otherwise. -/
def vos_semaTake (semaIsNull : Bool) (timeout : Nat) (wait : WaitResult) : SemaTakeResult :=
  let retVal := if semaIsNull then VOS_NOINIT_ERR else VOS_SEMA_ERR
  let msTimeout := timeout / 1000
  let _ := msTimeout
  match wait with
  | .waitObject0 => ⟨VOS_NO_ERR, semaIsNull, semaIsNull⟩
  | .waitFailed => ⟨VOS_SEMA_ERR, semaIsNull, semaIsNull⟩
  | _ => ⟨retVal, semaIsNull, semaIsNull⟩

/-- Result of `vos_semaGive`: whether the error message was logged, and
whether the function returned normally (it is `void` and always does). -/
structure SemaGiveResult where
  logged : Bool
  returned : Bool
  deriving DecidableEq, Repr

/-- `vos_semaGive`: null check (logs), then
`if (ReleaseSemaphore(...) == 0) { silent } else { log error }`.  The native
`ReleaseSemaphore` returns nonzero on success and 0 on failure (Win32
convention), modelled by `releaseOk`. -/
def vos_semaGive (semaIsNull : Bool) (releaseOk : Bool) : SemaGiveResult :=
  if semaIsNull then ⟨true, true⟩
  else
    let releaseRet : Nat := if releaseOk then 1 else 0
    if releaseRet = 0 then ⟨false, true⟩
    else ⟨true, true⟩

/-- `vos_getUuid`: packs the sampled time, a 16-bit wrapping call counter
(bytes 8 and 9) and the 6 hardware-address bytes into a 16-byte identifier.
`count` is the static counter value before the call; `mac` holds whatever
`vos_sockGetMAC` leaves in the last six bytes (its failure only logs).
Returns the identifier and the incremented counter. -/
def vos_getUuid (count : Nat) (t : VOS_TIMEVAL_T) (mac : Fin 6 → Nat) : List Nat × Nat :=
  let u := t.tv_usec % U32_MOD
  let s := toU32 t.tv_sec
  let c := count % 65536
  ([u % 256, u / 256 % 256, u / 65536 % 256, u / 16777216 % 256,
    s % 256, s / 256 % 256, s / 65536 % 256, (s / 16777216 % 16) ||| 4,
    c % 256, c / 256,
    mac 0, mac 1, mac 2, mac 3, mac 4, mac 5],
   (count + 1) % 65536)

/-- A run of successive `vos_getUuid` calls in one process: `uuidRun c0 ts
macs n` is the identifier and post-call counter of call `n`, starting from
static counter value `c0`, with arbitrary sampled timestamps `ts` and
hardware-address bytes `macs` per call. -/
def uuidRun (c0 : Nat) (ts : Nat → VOS_TIMEVAL_T) (macs : Nat → Fin 6 → Nat) :
    Nat → List Nat × Nat
  | 0 => vos_getUuid c0 (ts 0) (macs 0)
  | n + 1 => vos_getUuid (uuidRun c0 ts macs n).2 (ts (n + 1)) (macs (n + 1))

/-! ## Helper lemmas -/

theorem normalizeUsec_eq : ∀ (u : Nat) (s : Int),
    normalizeUsec s u = (s + (u / 1000000 : Nat), u % 1000000) := by
  intro u
  induction u using Nat.strong_induction_on with
  | _ u ih =>
    intro s
    rw [normalizeUsec]
    split
    · next h =>
      rw [ih (u - 1000000) (by omega)]
      simp only [Prod.mk.injEq]
      constructor <;> omega
    · next h =>
      simp only [Prod.mk.injEq]
      constructor <;> omega

theorem toU32_lt (s : Int) : toU32 s < U32_MOD := by
  simp only [toU32, U32_MOD]
  omega

theorem toU32_of_nonneg (s : Int) (h0 : 0 ≤ s) (h1 : s ≤ 4294967295) :
    toU32 s = s.toNat := by
  simp only [toU32]
  omega

theorem fromU32_toU32 (s : Int) (h0 : -2147483648 ≤ s) (h1 : s < 2147483648) :
    fromU32 (toU32 s) = s := by
  simp only [fromU32, toU32]
  split <;> omega

theorem usub32_eq (x y : Nat) (hy : y ≤ x) (hx : x < U32_MOD) :
    usub32 x y = x - y := by
  simp only [usub32, U32_MOD] at *
  omega

/-! ## Claim theorems -/

/-- Claim C1 (code bug): with the module initialized, valid pointers and
interval 0, the band index computed for priority 1 is 1 / 36 − 1 = −1, which
is not a valid index into the 7-element band table — the source reads
prioMap[−1] out of bounds — while the remaining seven priorities
36, 72, 108, 144, 180, 216, 255 select in-bounds bands that are
non-decreasing and cover all seven table entries in order. -/
theorem c1_priority_band_mapping :
    (vos_threadCreate true false false 1 0 true).prioIdx = some (-1) ∧
    selectedBand (vos_threadCreate true false false 1 0 true) = none ∧
    selectedBand (vos_threadCreate true false false 36 0 true) = some (-15) ∧
    selectedBand (vos_threadCreate true false false 72 0 true) = some (-2) ∧
    selectedBand (vos_threadCreate true false false 108 0 true) = some (-1) ∧
    selectedBand (vos_threadCreate true false false 144 0 true) = some 0 ∧
    selectedBand (vos_threadCreate true false false 180 0 true) = some 1 ∧
    selectedBand (vos_threadCreate true false false 216 0 true) = some 2 ∧
    selectedBand (vos_threadCreate true false false 255 0 true) = some 15 := by
  decide

/-- Claim C2 (code bug): the null check in `vos_semaTake` logs and sets the
not-initialized code but does not return early, so for every timeout and
native wait outcome the native wait is executed on the null handle; moreover
when the native wait reports WAIT_OBJECT_0 the call returns VOS_NO_ERR
instead of the not-initialized outcome. -/
theorem c2_semaTake_null_dereferenced :
    ∀ (timeout : Nat) (w : WaitResult),
      (vos_semaTake true timeout w).nativeWaitOnNull = true ∧
      (vos_semaTake true timeout WaitResult.waitObject0).ret = VOS_NO_ERR ∧
      (vos_semaTake true timeout WaitResult.waitTimeout).ret = VOS_NOINIT_ERR := by
  intro timeout w
  cases w <;> simp [vos_semaTake]

/-- Claim C5, counterexample: calling `vos_threadSelf` with a valid output
pointer before `vos_threadInit` returns VOS_NO_ERR, not the uninitialized
outcome, and `vos_threadDelay` before init likewise succeeds and reaches the
native `Sleep` — refuting the claim that every thread-lifecycle operation
fails with the uninitialized outcome when the module is not initialized. -/
theorem c5_counterexample :
    vos_threadSelf false false = VOS_NO_ERR ∧
    VOS_NO_ERR ≠ VOS_INIT_ERR ∧
    vos_threadDelay false 5000 = (VOS_NO_ERR, true) := by
  decide

/-- Claim C5, amended: `vos_threadCreate`, `vos_threadTerminate` and
`vos_threadIsActive` return the uninitialized error outcome with no other
effect (no native call) when the module is uninitialized, while
`vos_threadSelf` and `vos_threadDelay` perform no initialization check and
behave identically whatever the flag. -/
theorem c5_uninitialised_behaviour :
    ∀ (pT pN : Bool) (prio intv : Nat) (ok : Bool) (d : Nat) (i : Bool),
      vos_threadCreate false pT pN prio intv ok = ⟨VOS_INIT_ERR, false, none⟩ ∧
      vos_threadTerminate false ok = (VOS_INIT_ERR, false) ∧
      vos_threadIsActive false ok = (VOS_INIT_ERR, false) ∧
      vos_threadSelf i pT = vos_threadSelf true pT ∧
      vos_threadDelay i d = vos_threadDelay true d := by
  intro pT pN prio intv ok d i
  refine ⟨by simp [vos_threadCreate], rfl, rfl, rfl, rfl⟩

/-- Claim C6 (code bug): `vos_semaGive` with a non-null handle tests
`ReleaseSemaphore(...) == 0` as the silent case, so it logs the error message
exactly when the native release reports success (nonzero return) and stays
silent when the release reports failure; the call returns normally in both
cases. -/
theorem c6_semaGive_inverted_logging :
    (vos_semaGive false true).logged = true ∧
    (vos_semaGive false true).returned = true ∧
    (vos_semaGive false false).logged = false ∧
    (vos_semaGive false false).returned = true := by
  decide

/-- Claim C10: `vos_cmpTime` with a null pointer on either side returns 0
(the equal outcome) and writes nothing to the logging sink. -/
theorem c10_cmpTime_null_silent (a b : Option VOS_TIMEVAL_T)
    (h : a = none ∨ b = none) : vos_cmpTime a b = (0, false) := by
  rcases h with h | h
  · subst h; rfl
  · subst h; cases a <;> rfl

/-- Witness for C10 at a concrete input. -/
theorem c10_cmpTime_null_silent_witness :
    vos_cmpTime none (some ⟨3, 500⟩) = (0, false) :=
  c10_cmpTime_null_silent none (some ⟨3, 500⟩) (Or.inl rfl)

/-- Claim C7: every mutex operation validates the integrity tag and reports
the invalid-parameter outcome without any native call when the handle is
null, when its tag differs from the sentinel, and — because a successful
delete clears the tag to 0 — on every subsequent operation after a delete
whose native close succeeded; a delete whose native close fails leaves the
tag intact. -/
theorem c7_mutex_integrity (m bad : VOS_MUTEX) (w : WaitResult) (ok : Bool)
    (hm : m.magicNo = cMutextMagic) (hbad : bad.magicNo ≠ cMutextMagic) :
    vos_mutexLock none w = (VOS_PARAM_ERR, false) ∧
    vos_mutexTryLock none w = (VOS_PARAM_ERR, false) ∧
    vos_mutexUnlock none ok = (VOS_PARAM_ERR, false) ∧
    vos_mutexDelete none ok = ⟨none, true, false⟩ ∧
    vos_mutexLock (some bad) w = (VOS_PARAM_ERR, false) ∧
    vos_mutexTryLock (some bad) w = (VOS_PARAM_ERR, false) ∧
    vos_mutexUnlock (some bad) ok = (VOS_PARAM_ERR, false) ∧
    vos_mutexDelete (some bad) ok = ⟨some bad, true, false⟩ ∧
    vos_mutexDelete (some m) true = ⟨some ⟨0⟩, false, true⟩ ∧
    vos_mutexDelete (some m) false = ⟨some m, false, true⟩ ∧
    vos_mutexLock (some ⟨0⟩) w = (VOS_PARAM_ERR, false) ∧
    vos_mutexTryLock (some ⟨0⟩) w = (VOS_PARAM_ERR, false) ∧
    vos_mutexUnlock (some ⟨0⟩) ok = (VOS_PARAM_ERR, false) ∧
    vos_mutexDelete (some ⟨0⟩) ok = ⟨some ⟨0⟩, true, false⟩ := by
  obtain ⟨mv⟩ := m
  simp only at hm
  subst hm
  have h0 : (0 : Nat) ≠ cMutextMagic := by decide
  refine ⟨rfl, rfl, rfl, rfl, ?_, ?_, ?_, ?_, ?_, ?_, ?_, ?_, ?_, ?_⟩ <;>
    simp [vos_mutexLock, vos_mutexTryLock, vos_mutexUnlock, vos_mutexDelete,
      hbad, h0]

/-- Witness for C7: deleting a validly tagged mutex clears the tag, and a
subsequent lock on the cleared handle is rejected without a native call. -/
theorem c7_mutex_integrity_witness :
    vos_mutexDelete (some ⟨cMutextMagic⟩) true =
      ({ state := some ⟨0⟩, loggedInvalid := false, nativeCalled := true } : MutexDeleteResult) ∧
    vos_mutexLock (some ⟨0⟩) WaitResult.waitObject0 = (VOS_PARAM_ERR, false) := by
  have h := c7_mutex_integrity ⟨cMutextMagic⟩ ⟨0⟩ WaitResult.waitObject0 true rfl (by decide)
  exact ⟨h.2.2.2.2.2.2.2.2.1, h.2.2.2.2.2.2.2.2.2.2.1⟩

/-- Claim C8: `vos_divTime` by 0 leaves both fields unchanged and reports a
parameter error via the logging sink; `vos_divTime` by 1 is the identity and
logs nothing (the seconds field is assumed representable in the 32-bit
signed type of the C field). -/
theorem c8_divTime_zero_and_one (t : VOS_TIMEVAL_T)
    (h0 : -2147483648 ≤ t.tv_sec) (h1 : t.tv_sec < 2147483648) :
    vos_divTime t 0 = (t, true) ∧ vos_divTime t 1 = (t, false) := by
  obtain ⟨s, u⟩ := t
  simp only at h0 h1
  refine ⟨rfl, ?_⟩
  have hf := fromU32_toU32 s h0 h1
  simp [vos_divTime, Nat.mod_one, Nat.div_one, hf]

/-- Witness for C8 at a concrete input with negative seconds. -/
theorem c8_divTime_zero_and_one_witness :
    vos_divTime ⟨-5, 123⟩ 0 = (⟨-5, 123⟩, true) ∧
    vos_divTime ⟨-5, 123⟩ 1 = (⟨-5, 123⟩, false) :=
  c8_divTime_zero_and_one ⟨-5, 123⟩ (by decide) (by decide)

/-- Claim C3: in a cycle of `vos_cyclicThread` with elapsed time `e` (the
result of `vos_subTime` on the end and start timestamps), if
0 ≤ e.tv_sec ≤ 4293 then the execution time is
e.tv_sec · 1000000 + e.tv_usec microseconds and the waiting time is
interval − execTime without logging when execTime ≤ interval, and 0 with an
error logged when execTime > interval; if e.tv_sec > 4293 the waiting time
is 0 with an error logged.  For interval 10000, elapsed 3000 µs gives wait
7000 without logging, and elapsed 15000 µs gives wait 0 with an overrun
logged. -/
theorem c3_cyclic_wait (interval : Nat) (e : VOS_TIMEVAL_T)
    (hint : interval < 4294967296) (hu : e.tv_usec < 1000000) :
    (0 ≤ e.tv_sec → e.tv_sec ≤ 4293 →
      cyclicThreadWait interval e =
        if e.tv_sec.toNat * 1000000 + e.tv_usec ≤ interval
        then (interval - (e.tv_sec.toNat * 1000000 + e.tv_usec), false)
        else (0, true)) ∧
    (4293 < e.tv_sec → cyclicThreadWait interval e = (0, true)) ∧
    cyclicThreadWait 10000 ⟨0, 3000⟩ = (7000, false) ∧
    cyclicThreadWait 10000 ⟨0, 15000⟩ = (0, true) := by
  refine ⟨?_, ?_, by decide, by decide⟩
  · intro hs0 hs1
    have ht : toU32 e.tv_sec = e.tv_sec.toNat := toU32_of_nonneg e.tv_sec hs0 (by omega)
    have hexec : uadd32 (umul32 (umul32 (toU32 e.tv_sec) 1000) 1000) e.tv_usec =
        e.tv_sec.toNat * 1000000 + e.tv_usec := by
      simp only [umul32, uadd32, U32_MOD, ht]
      have hsn : e.tv_sec.toNat ≤ 4293 := by omega
      have e1 : e.tv_sec.toNat * 1000 % 4294967296 = e.tv_sec.toNat * 1000 :=
        Nat.mod_eq_of_lt (by omega)
      rw [e1]
      have e2 : e.tv_sec.toNat * 1000 * 1000 % 4294967296 = e.tv_sec.toNat * 1000 * 1000 :=
        Nat.mod_eq_of_lt (by omega)
      rw [e2]
      have e3 : e.tv_sec.toNat * 1000 * 1000 + e.tv_usec < 4294967296 := by omega
      rw [Nat.mod_eq_of_lt e3]
      ring
    simp only [cyclicThreadWait, hexec]
    rw [if_pos hs1]
    rcases le_or_lt (e.tv_sec.toNat * 1000000 + e.tv_usec) interval with hle | hlt
    · rw [if_neg (by omega), if_pos hle, usub32_eq _ _ hle (by simpa [U32_MOD] using hint)]
    · rw [if_pos hlt, if_neg (by omega)]
  · intro hs
    simp only [cyclicThreadWait]
    rw [if_neg (by omega)]

/-- Witness for C3: the interval-10000 / runtime-3000 scenario discharged
through the general theorem. -/
theorem c3_cyclic_wait_witness :
    cyclicThreadWait 10000 ⟨0, 3000⟩ = (7000, false) :=
  (c3_cyclic_wait 10000 ⟨0, 3000⟩ (by decide) (by decide)).2.2.1

/-- Claim C4: for time values whose microsecond fields are in [0, 1000000),
adding `b` to `a` and then subtracting `b` returns `a` exactly, and the
microsecond field after add, subtract, multiply (any factor) and divide (any
divisor) lies in [0, 1000000). -/
theorem c4_time_roundtrip_and_normalisation (a b : VOS_TIMEVAL_T) (k d : Nat)
    (ha : a.tv_usec < 1000000) (hb : b.tv_usec < 1000000) :
    vos_subTime (vos_addTime a b) b = a ∧
    (vos_addTime a b).tv_usec < 1000000 ∧
    (vos_subTime a b).tv_usec < 1000000 ∧
    (vos_mulTime a k).tv_usec < 1000000 ∧
    ((vos_divTime a d).1).tv_usec < 1000000 := by
  obtain ⟨sa, ua⟩ := a
  obtain ⟨sb, ub⟩ := b
  simp only at ha hb
  have hadd : vos_addTime ⟨sa, ua⟩ ⟨sb, ub⟩ =
      ⟨sa + sb + ((ua + ub) / 1000000 : Nat), (ua + ub) % 1000000⟩ := by
    simp only [vos_addTime, uadd32, U32_MOD]
    rw [Nat.mod_eq_of_lt (by omega), normalizeUsec_eq]
  refine ⟨?_, ?_, ?_, ?_, ?_⟩
  · rw [hadd]
    simp only [vos_subTime, uadd32, usub32, U32_MOD]
    split
    · next hlt =>
      simp only [VOS_TIMEVAL_T.mk.injEq]
      constructor <;> omega
    · next hge =>
      simp only [VOS_TIMEVAL_T.mk.injEq]
      constructor <;> omega
  · rw [hadd]
    simp only
    omega
  · simp only [vos_subTime, uadd32, usub32, U32_MOD]
    split <;> simp only <;> omega
  · simp only [vos_mulTime, normalizeUsec_eq]
    omega
  · by_cases hd : d = 0
    · subst hd
      simpa [vos_divTime] using ha
    · have hdp : 0 < d := Nat.pos_of_ne_zero hd
      simp only [vos_divTime, if_neg hd]
      by_cases h0 : 0 < toU32 sa % d
      · simp only [if_pos h0]
        rw [Nat.div_lt_iff_lt_mul hdp]
        have htd : toU32 sa % d < d := Nat.mod_lt _ hdp
        simp only [uadd32, umul32, U32_MOD]
        omega
      · simp only [if_neg h0]
        exact lt_of_le_of_lt (Nat.div_le_self _ _) ha

/-- Witness for C4 at a concrete carrying pair. -/
theorem c4_time_roundtrip_and_normalisation_witness :
    vos_subTime (vos_addTime ⟨7, 900000⟩ ⟨2, 300000⟩) ⟨2, 300000⟩ = ⟨7, 900000⟩ :=
  (c4_time_roundtrip_and_normalisation ⟨7, 900000⟩ ⟨2, 300000⟩ 3 7
    (by decide) (by decide)).1

/-- The static counter of `vos_getUuid` after `n + 1` calls starting from
`c0`: it has incremented by exactly one per call, wrapping modulo 2^16. -/
theorem uuidRun_count (c0 : Nat) (ts : Nat → VOS_TIMEVAL_T) (macs : Nat → Fin 6 → Nat) :
    ∀ n, (uuidRun c0 ts macs n).2 = (c0 + n + 1) % 65536 := by
  intro n
  induction n with
  | zero => simp [uuidRun, vos_getUuid]
  | succ n ih =>
    simp only [uuidRun, vos_getUuid, ih]
    omega

/-- Bytes 8 and 9 of the identifier produced by call `n` hold the low and
high byte of the wrapped counter value `(c0 + n) % 2^16`. -/
theorem uuidRun_bytes89 (c0 : Nat) (ts : Nat → VOS_TIMEVAL_T) (macs : Nat → Fin 6 → Nat) :
    ∀ n, ((uuidRun c0 ts macs n).1).get? 8 = some ((c0 + n) % 65536 % 256) ∧
         ((uuidRun c0 ts macs n).1).get? 9 = some ((c0 + n) % 65536 / 256) := by
  intro n
  cases n with
  | zero =>
    constructor <;> simp [uuidRun, vos_getUuid]
  | succ n =>
    have hc := uuidRun_count c0 ts macs n
    constructor <;>
      · simp only [uuidRun, vos_getUuid, hc, List.get?]
        congr 1
        omega

/-- Claim C9: any two distinct calls among 10000 successive `vos_getUuid`
calls in one process return distinct identifiers, for every starting counter
value, every sequence of sampled timestamps and every sequence of
hardware-address bytes, because bytes 8 and 9 hold the 16-bit counter that
increments by exactly one per call, wrapping modulo 2^16. -/
theorem c9_uuid_distinct (c0 : Nat) (ts : Nat → VOS_TIMEVAL_T) (macs : Nat → Fin 6 → Nat)
    (i j : Nat) (hi : i < 10000) (hj : j < 10000) (hij : i ≠ j) :
    (uuidRun c0 ts macs i).1 ≠ (uuidRun c0 ts macs j).1 ∧
    (∀ n, (uuidRun c0 ts macs n).2 = (c0 + n + 1) % 65536) := by
  refine ⟨?_, uuidRun_count c0 ts macs⟩
  intro heq
  have h8i := (uuidRun_bytes89 c0 ts macs i).1
  have h9i := (uuidRun_bytes89 c0 ts macs i).2
  rw [heq, (uuidRun_bytes89 c0 ts macs j).1] at h8i
  rw [heq, (uuidRun_bytes89 c0 ts macs j).2] at h9i
  simp only [Option.some.injEq] at h8i h9i
  omega

/-- Witness for C9: calls 0 and 1 of a run with constant timestamps and
hardware bytes return distinct identifiers. -/
theorem c9_uuid_distinct_witness :
    (uuidRun 1 (fun _ => ⟨0, 0⟩) (fun _ _ => 0) 0).1 ≠
    (uuidRun 1 (fun _ => ⟨0, 0⟩) (fun _ _ => 0) 1).1 :=
  (c9_uuid_distinct 1 (fun _ => ⟨0, 0⟩) (fun _ _ => 0) 0 1
    (by decide) (by decide) (by decide)).1

end VosWin
